import Mathlib

/-!
Verification of the Albums pane (src/src/ui/panes/albums.rs) of rmpc.

The pane's own logic (open_or_play, add, add_all, prepare_preview,
on_query_finished, list_titles, find_songs) is shallowly embedded below as
pure Lean functions. Side effects dispatched through the application context
(query submissions, MPD client commands, redraw requests, log lines) are
reified as an explicit list of `Effect` values returned by each operation;
the deferred closures handed to the query/command workers are reified as the
data types `QueryWork` and `MpdCommand` together with the interpreters
`runWork` and `runCommand`, which implement the bodies of those closures
against a model `Catalog` of the MPD server.

Supporting code that the pane uses but that is not part of the analysed
source file (the DirStack navigation stack, DirOrSong helpers, the query
correlator of the event loop) is modelled from the specification; each such
definition carries a doc comment saying so.
-/

namespace Rmpc

/-- A song as returned by the MPD client: file path plus the tag values the
pane filters and sorts on. -/
structure Song where
  file : String
  album : String
  title : String
  deriving DecidableEq, Repr

/-- Modelled from the spec: the Item tagged variant of the data model, a
collapsible group (Directory, carrying a name) or a terminal entry (a Song).
Mirrors DirOrSong from ui/dir_or_song.rs, which is not in the analysed
sources. -/
inductive DirOrSong where
  | dir (name : String)
  | song (s : Song)
  deriving DecidableEq, Repr

/-- Modelled from the spec: DirOrSong::as_path, the name used to extend the
navigation path (directory name, or the song file). -/
def DirOrSong.as_path : DirOrSong → String
  | .dir name => name
  | .song s => s.file

/-- Modelled from the spec: DirOrSong::dir_name_or_file_name, the name used
when building add filters. -/
def DirOrSong.dir_name_or_file_name : DirOrSong → String
  | .dir name => name
  | .song s => s.file

/-- Modelled from the spec: DirOrSong::name_only, building a Directory item
from a bare group name (used to rebuild the root level from the INIT query
result). -/
def DirOrSong.name_only (name : String) : DirOrSong :=
  .dir name

/-- The configurable song sort (config.browser_song_sort). The source sorts
with a total comparator derived from the configured options
(a.with_custom_sort(opts).cmp(b.with_custom_sort(opts))); we model the
options as the boolean less-or-equal relation of that comparator. -/
structure SortOptions where
  le : Song → Song → Bool

/-- Stable insertion into a sorted list, auxiliary to `sortBy`. -/
def insertSorted (le : Song → Song → Bool) (x : Song) : List Song → List Song
  | [] => [x]
  | y :: ys => if le x y then x :: y :: ys else y :: insertSorted le x ys

/-- Stable sort by a boolean comparator; models itertools sorted_by (which
is a stable sort) as used by list_titles and find_songs. -/
def sortBy (le : Song → Song → Bool) : List Song → List Song
  | [] => []
  | x :: xs => insertSorted le x (sortBy le xs)

/-- An attribute-equality filter, as passed to MpdClient::find and
find_add. Only the File and Album tags are used by this pane. -/
inductive Filter where
  | file (v : String)
  | album (v : String)
  deriving DecidableEq, Repr

/-- Does a song match one filter? -/
def matchesFilter (f : Filter) (s : Song) : Bool :=
  match f with
  | .file v => s.file == v
  | .album v => s.album == v

/-- The model of the remote MPD catalog: the full song database plus the
distinct album names returned by list_tag(Album). -/
structure Catalog where
  songs : List Song
  albums : List String

/-- client.find: all catalog songs matching the conjunction of the given
filters. -/
def findCat (cat : Catalog) (fs : List Filter) : List Song :=
  cat.songs.filter (fun s => fs.all (fun f => matchesFilter f s))

/-- list_titles from albums.rs: find all songs of the album, sort them with
the configured comparator, wrap them as DirOrSong::Song items. -/
def list_titles (cat : Catalog) (album : String) (sort_opts : SortOptions) : List DirOrSong :=
  (sortBy sort_opts.le (findCat cat [Filter.album album])).map DirOrSong.song

/-- find_songs from albums.rs: find songs matching File = file and
Album = album, sort them with the configured comparator, take the first;
zero matches is an error naming the album and the file. -/
def find_songs (cat : Catalog) (album : String) (file : String) (sort_opts : SortOptions) :
    Except String Song :=
  match (sortBy sort_opts.le (findCat cat [Filter.file file, Filter.album album])).head? with
  | some s => .ok s
  | none =>
      .error ("Expected to find exactly one song: album: \x27" ++ album ++
        "\x27, current: \x27" ++ file ++ "\x27")

/-- Modelled from the spec: a preview entry, either the rich metadata view
of one song (GroupSelected previews) or a simple one-line list item (Root
previews). Stands for the PreviewGroup/ListItem payloads built by
to_preview and to_list_item_simple, which are not in the analysed sources. -/
inductive PreviewItem where
  | rich (s : Song)
  | simple (name : String)
  deriving DecidableEq, Repr

/-- Modelled from the spec: one level of the navigation stack, an ordered
sequence of items plus a selection index. -/
structure Level where
  items : List DirOrSong
  selectedIdx : Nat
  deriving DecidableEq, Repr

/-- Modelled from the spec: the currently selected item of a level, if the
selection index is in bounds. -/
def Level.selected (l : Level) : Option DirOrSong :=
  l.items[l.selectedIdx]?

/-- Modelled from the spec: the DirStack navigation stack (ui/dirstack.rs is
not in the analysed sources): previous levels from the root (others), the
current level, and the optional preview slot. -/
structure DirStack where
  others : List Level
  current : Level
  preview : Option (List PreviewItem)
  deriving DecidableEq, Repr

/-- Modelled from the spec: the path, the sequence of selected names from the
root level up to but not including the current level. -/
def DirStack.path (s : DirStack) : List String :=
  s.others.filterMap (fun l => l.selected.map DirOrSong.as_path)

/-- Modelled from the spec: next_path, the path extended with the name of the
currently selected item; None when nothing is selected. -/
def DirStack.next_path (s : DirStack) : Option (List String) :=
  s.current.selected.map (fun it => s.path ++ [it.as_path])

/-- Modelled from the spec: push an (initially empty) level when drilling
down; the old current level becomes a previous level. -/
def DirStack.push (s : DirStack) (items : List DirOrSong) : DirStack :=
  { s with others := s.others ++ [s.current], current := { items := items, selectedIdx := 0 } }

/-- Clamp a selection index to the bounds of a sequence of the given
length. -/
def clampIdx (idx : Nat) (len : Nat) : Nat :=
  if len = 0 then 0 else min idx (len - 1)

/-- Modelled from the spec: replace the current level's contents once a
fetch resolves, clamping the selection index to the new bounds. -/
def DirStack.replace (s : DirStack) (items : List DirOrSong) : DirStack :=
  { s with current := { items := items, selectedIdx := clampIdx s.current.selectedIdx items.length } }

/-- Modelled from the spec: clear the preview slot. -/
def DirStack.clear_preview (s : DirStack) : DirStack :=
  { s with preview := none }

/-- Modelled from the spec: set the preview slot. -/
def DirStack.set_preview (s : DirStack) (d : Option (List PreviewItem)) : DirStack :=
  { s with preview := d }

/-- Modelled from the spec: DirStack::new, a fresh stack with the given root
level and no preview. -/
def DirStack.new (root : List DirOrSong) : DirStack :=
  { others := [], current := { items := root, selectedIdx := 0 }, preview := none }

/-- The pane-type tag scoping query results to the pane that issued them;
only Albums is relevant here. -/
inductive PaneType where
  | Albums
  deriving DecidableEq, Repr

/-- An explicit queue position for add commands; passed through, never
inspected by this pane. -/
inductive QueuePosition where
  | absolute (n : Nat)
  deriving DecidableEq, Repr

/-- The tagged query-result variant (MpdQueryResult), carrying a payload
plus the origin_path it was computed against. -/
inductive MpdQueryResult where
  | dirOrSong (data : List DirOrSong) (origin_path : Option (List String))
  | lsInfo (data : List String) (origin_path : Option (List String))
  | preview (data : Option (List PreviewItem)) (origin_path : Option (List String))
  deriving DecidableEq, Repr

/-- The deferred work of a query, reified: each constructor captures exactly
the immutable snapshots the corresponding closure in albums.rs captures. -/
inductive QueryWork where
  | initWork
  | openOrPlayWork (album : String) (sort : SortOptions) (origin : List String)
  | previewSongWork (album : String) (file : String) (sort : SortOptions) (origin : List String)
  | previewListWork (album : String) (sort : SortOptions) (origin : List String)

/-- Run a query's deferred work against the catalog; implements the bodies
of the query closures in albums.rs. -/
def runWork (w : QueryWork) (cat : Catalog) : Except String MpdQueryResult :=
  match w with
  | .initWork => .ok (.lsInfo cat.albums none)
  | .openOrPlayWork album sort origin =>
      .ok (.dirOrSong (list_titles cat album sort) (some origin))
  | .previewSongWork album file sort origin => do
      let s ← find_songs cat album file sort
      .ok (.preview (some [.rich s]) (some origin))
  | .previewListWork album sort origin =>
      .ok (.preview (some ((list_titles cat album sort).map (fun d => .simple d.as_path)))
        (some origin))

/-- A submitted query: logical id, supersession key (replace_id), owner
pane, and the deferred work. -/
structure MpdQuery where
  id : String
  replaceId : String
  target : PaneType
  work : QueryWork

/-- The action of an MPD client command dispatched by the pane. -/
inductive CmdAction where
  | findAdd (fs : List Filter) (pos : Option QueuePosition)
  | addUri (uri : String) (pos : Option QueuePosition)
  | playLast (idx : Nat)

/-- A dispatched command closure, reified: the client action plus the status
message the closure emits after the action succeeds. -/
structure MpdCommand where
  action : CmdAction
  statusOnSuccess : Option String

/-- Run a command against the catalog and play queue; returns the new queue
and the user-visible status messages emitted. In the model the client
operations are total, so the success message is always emitted. -/
def runCommand (c : MpdCommand) (cat : Catalog) (queue : List Song) :
    List Song × List String :=
  let msgs := match c.statusOnSuccess with
    | some m => [m]
    | none => []
  match c.action with
  | .findAdd fs _pos => (queue ++ findCat cat fs, msgs)
  | .addUri _u _pos => (queue ++ cat.songs, msgs)
  | .playLast _idx => (queue, msgs)

/-- One observable side effect dispatched through the application context. -/
inductive Effect where
  | logError (msg : String)
  | logTrace (msg : String)
  | querySubmit (q : MpdQuery)
  | command (c : MpdCommand)
  | render

/-- The query-id constants of albums.rs. -/
def INIT : String := "init"

/-- The open_or_play query id. -/
def OPEN_OR_PLAY : String := "open_or_play"

/-- The preview query id. -/
def PREVIEW : String := "preview"

/-- The pane state: navigation stack plus the filter-input flag (the Browser
widget and the initialization flag belong to rendering and before_show,
outside the verified operations). -/
structure AlbumsPane where
  stack : DirStack
  filter_input_mode : Bool := false

/-- The part of the application context the pane reads: the client-side
play-queue snapshot and the configured song sort. -/
structure AppContext where
  queue : List Song
  browserSongSort : SortOptions

/-- AlbumsPane::add: depth-dependent filter construction, dispatching a
find_add command with a success status message; a no-op at unexpected
depths. -/
def AlbumsPane.add (p : AlbumsPane) (item : DirOrSong) (position : Option QueuePosition) :
    List Effect :=
  match p.stack.path with
  | [album] =>
      let name := item.dir_name_or_file_name
      [.command
        { action := .findAdd [Filter.file name, Filter.album album] position,
          statusOnSuccess := some ("\x27" ++ name ++ "\x27 added to queue") }]
  | [] =>
      let name := item.dir_name_or_file_name
      [.command
        { action := .findAdd [Filter.album name] position,
          statusOnSuccess := some ("Album \x27" ++ name ++ "\x27 added to queue") }]
  | _ => []

/-- AlbumsPane::add_all: filtered to the current album at depth 1, the whole
library (add "/") at the root; a no-op at unexpected depths. -/
def AlbumsPane.add_all (p : AlbumsPane) (position : Option QueuePosition) : List Effect :=
  match p.stack.path with
  | [album] =>
      [.command
        { action := .findAdd [Filter.album album] position,
          statusOnSuccess := some ("Album \x27" ++ album ++ "\x27 added to queue") }]
  | [] =>
      [.command
        { action := .addUri "/" position,
          statusOnSuccess := some "All albums added to queue" }]
  | _ => []

/-- AlbumsPane::open_or_play: guard on a selected item and a computable
next_path, then depth-dependent behaviour: enqueue (and optionally play) at
depth 1, drill down with a placeholder level and an async fetch at the
root, log-and-render at unexpected depths. -/
def AlbumsPane.open_or_play (p : AlbumsPane) (autoplay : Bool) (ctx : AppContext) :
    Except String (AlbumsPane × List Effect) :=
  match p.stack.current.selected with
  | none => .ok (p, [.logError "Failed to move deeper inside dir. Current value is None"])
  | some current =>
    match p.stack.next_path with
    | none => .ok (p, [.logError "Failed to move deeper inside dir. Next path is None"])
    | some next_path =>
      match p.stack.path with
      | [_album] =>
          let effs := p.add current none
          let queue_len := ctx.queue.length
          let effs := if autoplay
            then effs ++ [.command { action := .playLast queue_len, statusOnSuccess := none }]
            else effs
          .ok (p, effs)
      | [] =>
          let q : MpdQuery :=
            { id := OPEN_OR_PLAY, replaceId := OPEN_OR_PLAY, target := .Albums,
              work := .openOrPlayWork current.as_path ctx.browserSongSort next_path }
          .ok ({ p with stack := (p.stack.push []).clear_preview },
            [.querySubmit q, .render])
      | _ =>
          .ok (p, [.logError "Unexpected nesting in Artists dir structure", .render])

/-- AlbumsPane::prepare_preview: snapshot the selected name and the path,
clear the preview, then submit the depth-appropriate preview query (single
song at depth 1, sorted title list at the root); nothing is submitted at
unexpected depths. -/
def AlbumsPane.prepare_preview (p : AlbumsPane) (ctx : AppContext) :
    AlbumsPane × List Effect :=
  match p.stack.current.selected.map DirOrSong.as_path with
  | none => (p, [])
  | some current =>
    let origin_path := p.stack.path
    let p := { p with stack := p.stack.clear_preview }
    match p.stack.path with
    | [album] =>
        (p, [.querySubmit
          { id := PREVIEW, replaceId := "albums_preview", target := .Albums,
            work := .previewSongWork album current ctx.browserSongSort origin_path }])
    | [] =>
        (p, [.querySubmit
          { id := PREVIEW, replaceId := "albums_preview", target := .Albums,
            work := .previewListWork current ctx.browserSongSort origin_path }])
    | _ => (p, [])

/-- AlbumsPane::on_query_finished: route a completed query result. Results
carrying a present origin_path are dropped (with a trace log) when it
differs from the live path; otherwise the payload is applied (preview set,
current level replaced, or the whole stack rebuilt for INIT results, whose
origin_path is ignored). -/
def AlbumsPane.on_query_finished (p : AlbumsPane) (id : String) (data : MpdQueryResult)
    (ctx : AppContext) : AlbumsPane × List Effect :=
  if id = PREVIEW then
    match data with
    | .preview d origin =>
        match origin with
        | some o =>
            if o ≠ p.stack.path then
              (p, [.logTrace "Dropping preview because it does not belong to this path"])
            else
              ({ p with stack := p.stack.set_preview d }, [.render])
        | none => ({ p with stack := p.stack.set_preview d }, [.render])
    | _ => (p, [])
  else if id = INIT then
    match data with
    | .lsInfo d _origin =>
        let root := d.map DirOrSong.name_only
        let p := { p with stack := DirStack.new root }
        p.prepare_preview ctx
    | _ => (p, [])
  else if id = OPEN_OR_PLAY then
    match data with
    | .dirOrSong d origin =>
        match origin with
        | some o =>
            if o ≠ p.stack.path then
              (p, [.logTrace "Dropping result because it does not belong to this path"])
            else
              let p := { p with stack := p.stack.replace d }
              let pe := p.prepare_preview ctx
              (pe.1, pe.2 ++ [.render])
        | none =>
            let p := { p with stack := p.stack.replace d }
            let pe := p.prepare_preview ctx
            (pe.1, pe.2 ++ [.render])
    | _ => (p, [])
  else (p, [])

/-- Modelled from the spec: the Query Correlator of the event loop (not in
the analysed sources). It tracks, per supersession key, the generation of
the most recently submitted query; a result is honoured only if its
generation is still the current one for its key. -/
structure CorrelatorState where
  counter : Nat
  slots : List (String × Nat)

/-- Look up the current generation recorded for a supersession key. -/
def lookupSlot (slots : List (String × Nat)) (k : String) : Option Nat :=
  match slots with
  | [] => none
  | (k2, g) :: rest => if k2 = k then some g else lookupSlot rest k

/-- Record a new generation for a supersession key. -/
def setSlot (slots : List (String × Nat)) (k : String) (g : Nat) : List (String × Nat) :=
  match slots with
  | [] => [(k, g)]
  | (k2, g2) :: rest => if k2 = k then (k2, g) :: rest else (k2, g2) :: setSlot rest k g

/-- Modelled from the spec: submit a query under a supersession key. A fresh
generation supersedes whatever was outstanding under that key; the
superseded query is not cancelled, its result is merely stale. -/
def submitQuery (st : CorrelatorState) (key : String) : CorrelatorState × Nat :=
  let g := st.counter + 1
  ({ counter := g, slots := setSlot st.slots key g }, g)

/-- Modelled from the spec: the Result Router's decision whether a completed
query's result is applied: its origin must still match (originMatches, the
pane-level check of on_query_finished) and its generation must still be the
current one for its supersession key. -/
def resultApplied (st : CorrelatorState) (key : String) (gen : Nat) (originMatches : Bool) :
    Bool :=
  originMatches && (lookupSlot st.slots key == some gen)

/-! Concrete fixtures used by witness and counterexample theorems. -/

/-- A sample song in album A. -/
def songE1 : Song := { file := "e1.mp3", album := "A", title := "t1" }

/-- A second sample song in album A. -/
def songE2 : Song := { file := "e2.mp3", album := "A", title := "t2" }

/-- A sample song in album B. -/
def songE3 : Song := { file := "e3.mp3", album := "B", title := "t3" }

/-- A concrete sort configuration: compare songs by title. -/
def demoSort : SortOptions := { le := fun a b => decide (a.title ≤ b.title) }

/-- A concrete catalog with two albums. -/
def demoCatalog : Catalog := { songs := [songE1, songE2, songE3], albums := ["A", "B"] }

/-- A root level listing the two albums, with A selected. -/
def rootLevelAB : Level := { items := [DirOrSong.dir "A", DirOrSong.dir "B"], selectedIdx := 0 }

/-- A level of album A's songs, with songE2 selected. -/
def groupLevelA : Level :=
  { items := [DirOrSong.song songE1, DirOrSong.song songE2], selectedIdx := 1 }

/-- A pane at the root, hovering album A. -/
def paneAtRoot : AlbumsPane :=
  { stack := { others := [], current := rootLevelAB, preview := none } }

/-- A pane drilled into album A (path A), hovering songE2. -/
def paneAtA : AlbumsPane :=
  { stack := { others := [rootLevelAB], current := groupLevelA, preview := none } }

/-- A pane at an unexpected depth-2 path (A, B). -/
def deepPane : AlbumsPane :=
  { stack :=
      { others := [rootLevelAB, { items := [DirOrSong.dir "B"], selectedIdx := 0 }],
        current := groupLevelA, preview := none } }

/-- A pane whose current level is empty, so it has no selection. -/
def emptyPane : AlbumsPane :=
  { stack := { others := [], current := { items := [], selectedIdx := 0 }, preview := none } }

/-- A concrete application context: one song in the play queue. -/
def demoCtx : AppContext := { queue := [songE3], browserSongSort := demoSort }

/-! Helper lemmas shared between claim theorems. -/

/-- prepare_preview never touches the levels of the stack: it only clears
the preview slot and submits a query. -/
theorem prepare_preview_preserves_levels (p : AlbumsPane) (ctx : AppContext) :
    (p.prepare_preview ctx).1.stack.others = p.stack.others ∧
    (p.prepare_preview ctx).1.stack.current = p.stack.current := by
  unfold AlbumsPane.prepare_preview
  split
  · exact ⟨rfl, rfl⟩
  · dsimp only
    split <;> simp [DirStack.clear_preview]

/-- The correlator slot map records the most recent generation stored for a
key. -/
theorem lookupSlot_setSlot (slots : List (String × Nat)) (k : String) (g : Nat) :
    lookupSlot (setSlot slots k g) k = some g := by
  induction slots with
  | nil => simp [setSlot, lookupSlot]
  | cons hd tl ih =>
      obtain ⟨k2, g2⟩ := hd
      by_cases h : k2 = k
      · simp [setSlot, lookupSlot, h]
      · simp [setSlot, lookupSlot, h, ih]

/-- C2: submitting two queries under the same supersession key before either
completes yields distinct generations; the earlier submission's result is
never applied (whatever its origin check says), and the later submission's
result is applied when its origin path matches the live path. -/
theorem supersession_later_submission_wins (st : CorrelatorState) (key : String) (b : Bool) :
    (submitQuery st key).2 ≠ (submitQuery (submitQuery st key).1 key).2 ∧
    resultApplied (submitQuery (submitQuery st key).1 key).1 key (submitQuery st key).2 b
      = false ∧
    resultApplied (submitQuery (submitQuery st key).1 key).1 key
      (submitQuery (submitQuery st key).1 key).2 true = true := by
  refine ⟨by simp [submitQuery], ?_, ?_⟩
  · simp [submitQuery, resultApplied, lookupSlot_setSlot]
  · simp [submitQuery, resultApplied, lookupSlot_setSlot]

/-- C5: the preview-by-filename lookup returns the first match after
applying the display sort comparator when at least one entry matches, and
fails with an explicit not-found error naming both the album (group) and
the filename when zero entries match. -/
theorem find_songs_first_match_or_named_error (cat : Catalog) (album : String) (file : String)
    (sort_opts : SortOptions) :
    (∀ s rest,
      sortBy sort_opts.le (findCat cat [Filter.file file, Filter.album album]) = s :: rest →
      find_songs cat album file sort_opts = .ok s) ∧
    (findCat cat [Filter.file file, Filter.album album] = [] →
      find_songs cat album file sort_opts =
        .error ("Expected to find exactly one song: album: \x27" ++ album ++
          "\x27, current: \x27" ++ file ++ "\x27") ∧
      ∃ pre mid post,
        find_songs cat album file sort_opts = .error (pre ++ album ++ mid ++ file ++ post)) := by
  constructor
  · intro s rest h
    simp [find_songs, h]
  · intro h
    refine ⟨by simp [find_songs, h, sortBy], ?_⟩
    exact ⟨"Expected to find exactly one song: album: \x27", "\x27, current: \x27", "\x27",
      by simp [find_songs, h, sortBy]⟩

/-- C5 witness: in the demo catalog no song of album A has file zzz, so the
lookup fails with the not-found error naming A and zzz. -/
theorem find_songs_named_error_witness :
    findCat demoCatalog [Filter.file "zzz", Filter.album "A"] = [] ∧
    (find_songs demoCatalog "A" "zzz" demoSort =
        .error ("Expected to find exactly one song: album: \x27A\x27, current: \x27zzz\x27") ∧
      ∃ pre mid post,
        find_songs demoCatalog "A" "zzz" demoSort =
          .error (pre ++ "A" ++ mid ++ "zzz" ++ post)) :=
  ⟨by decide, (find_songs_first_match_or_named_error demoCatalog "A" "zzz" demoSort).2
    (by decide)⟩

/-- C7: add(item) builds its filter depending on depth: at depth 1 an exact
filter on the item's filename and the current album, at the root a filter
on the album name only; in both cases the dispatched command emits a
user-visible status message naming the item on success. -/
theorem add_depth_dependent_filter (p : AlbumsPane) (item : DirOrSong)
    (pos : Option QueuePosition) (a : String) (cat : Catalog) (queue : List Song) :
    (p.stack.path = [a] →
      p.add item pos =
        [.command
          { action := .findAdd [Filter.file item.dir_name_or_file_name, Filter.album a] pos,
            statusOnSuccess :=
              some ("\x27" ++ item.dir_name_or_file_name ++ "\x27 added to queue") }] ∧
      (runCommand
        { action := .findAdd [Filter.file item.dir_name_or_file_name, Filter.album a] pos,
          statusOnSuccess :=
            some ("\x27" ++ item.dir_name_or_file_name ++ "\x27 added to queue") }
        cat queue).2 = ["\x27" ++ item.dir_name_or_file_name ++ "\x27 added to queue"]) ∧
    (p.stack.path = [] →
      p.add item pos =
        [.command
          { action := .findAdd [Filter.album item.dir_name_or_file_name] pos,
            statusOnSuccess :=
              some ("Album \x27" ++ item.dir_name_or_file_name ++ "\x27 added to queue") }] ∧
      (runCommand
        { action := .findAdd [Filter.album item.dir_name_or_file_name] pos,
          statusOnSuccess :=
            some ("Album \x27" ++ item.dir_name_or_file_name ++ "\x27 added to queue") }
        cat queue).2
        = ["Album \x27" ++ item.dir_name_or_file_name ++ "\x27 added to queue"]) := by
  constructor
  · intro h
    exact ⟨by simp [AlbumsPane.add, h], by simp [runCommand]⟩
  · intro h
    exact ⟨by simp [AlbumsPane.add, h], by simp [runCommand]⟩

/-- C7 witness: adding the selected song at path A enqueues with the exact
(file, album) filter and a status message; adding an album at the root
filters by album name only. -/
theorem add_depth_dependent_filter_witness :
    paneAtA.stack.path = ["A"] ∧
    paneAtA.add (DirOrSong.song songE2) none =
      [.command
        { action := .findAdd [Filter.file "e2.mp3", Filter.album "A"] none,
          statusOnSuccess := some ("\x27e2.mp3\x27 added to queue") }] :=
  ⟨by decide,
    ((add_depth_dependent_filter paneAtA (DirOrSong.song songE2) none "A" demoCatalog []).1
      (by decide)).1⟩

/-- C8: add_all issues an unfiltered add of the whole catalog at the root,
and an add filtered to the current album name only at depth 1. -/
theorem add_all_depth_dependent (p : AlbumsPane) (pos : Option QueuePosition) (a : String)
    (cat : Catalog) (queue : List Song) :
    (p.stack.path = [] →
      p.add_all pos =
        [.command
          { action := .addUri "/" pos,
            statusOnSuccess := some "All albums added to queue" }] ∧
      (runCommand
        { action := .addUri "/" pos, statusOnSuccess := some "All albums added to queue" }
        cat queue).1 = queue ++ cat.songs) ∧
    (p.stack.path = [a] →
      p.add_all pos =
        [.command
          { action := .findAdd [Filter.album a] pos,
            statusOnSuccess := some ("Album \x27" ++ a ++ "\x27 added to queue") }]) := by
  constructor
  · intro h
    exact ⟨by simp [AlbumsPane.add_all, h], by simp [runCommand]⟩
  · intro h
    simp [AlbumsPane.add_all, h]

/-- C8 witness: at the root the whole library is added unfiltered (the model
queue receives every catalog song); at path A the add is filtered to album
A. -/
theorem add_all_depth_dependent_witness :
    paneAtRoot.stack.path = [] ∧
    paneAtA.stack.path = ["A"] ∧
    (runCommand
      { action := .addUri "/" none, statusOnSuccess := some "All albums added to queue" }
      demoCatalog []).1 = [] ++ demoCatalog.songs ∧
    paneAtA.add_all none =
      [.command
        { action := .findAdd [Filter.album "A"] none,
          statusOnSuccess := some ("Album \x27A\x27 added to queue") }] :=
  ⟨by decide, by decide,
    ((add_all_depth_dependent paneAtRoot none "A" demoCatalog []).1 (by decide)).2,
    (add_all_depth_dependent paneAtA none "A" demoCatalog []).2 (by decide)⟩

/-- C1: a query result carrying a present origin_path (preview and
drill-down results) is applied iff that origin_path equals the live path
when the result is handled: on a mismatch the result is dropped with a
trace log and the pane state is left completely unchanged; on a match the
preview payload is stored (with a redraw) and the drill-down payload
becomes the current level's contents. -/
theorem origin_path_gating (p : AlbumsPane) (ctx : AppContext) (o : List String)
    (d : Option (List PreviewItem)) (items : List DirOrSong) :
    (o ≠ p.stack.path →
      p.on_query_finished PREVIEW (.preview d (some o)) ctx
        = (p, [.logTrace "Dropping preview because it does not belong to this path"]) ∧
      p.on_query_finished OPEN_OR_PLAY (.dirOrSong items (some o)) ctx
        = (p, [.logTrace "Dropping result because it does not belong to this path"])) ∧
    (o = p.stack.path →
      p.on_query_finished PREVIEW (.preview d (some o)) ctx
        = ({ p with stack := p.stack.set_preview d }, [.render]) ∧
      (p.on_query_finished OPEN_OR_PLAY (.dirOrSong items (some o)) ctx).1.stack.current.items
        = items) := by
  constructor
  · intro h
    constructor
    · simp [AlbumsPane.on_query_finished, PREVIEW, h]
    · simp [AlbumsPane.on_query_finished, PREVIEW, OPEN_OR_PLAY, INIT, h]
  · intro h
    constructor
    · simp [AlbumsPane.on_query_finished, PREVIEW, h]
    · have hl := prepare_preview_preserves_levels
        { p with stack := p.stack.replace items } ctx
      simp [AlbumsPane.on_query_finished, PREVIEW, OPEN_OR_PLAY, INIT, h]
      rw [hl.2]
      simp [DirStack.replace]

/-- C1 witness: a preview result computed for path X arriving while the
pane stands at path A is dropped unchanged. -/
theorem origin_path_gating_witness :
    (["X"] : List String) ≠ paneAtA.stack.path ∧
    paneAtA.on_query_finished PREVIEW (.preview none (some ["X"])) demoCtx
      = (paneAtA, [.logTrace "Dropping preview because it does not belong to this path"]) :=
  ⟨by decide, ((origin_path_gating paneAtA demoCtx ["X"] none []).1 (by decide)).1⟩

/-- C9: a result with an absent origin_path skips the staleness check and is
applied unconditionally: a preview with no origin is stored regardless of
the live path, a drill-down result with no origin replaces the current
level, and an initialization result (whose work always reports
origin_path = none) replaces the whole stack with a fresh root level no
matter how deep the pane currently is. -/
theorem absent_origin_applied_unconditionally (p : AlbumsPane) (ctx : AppContext)
    (d : Option (List PreviewItem)) (items : List DirOrSong) (names : List String)
    (o : Option (List String)) (cat : Catalog) :
    p.on_query_finished PREVIEW (.preview d none) ctx
      = ({ p with stack := p.stack.set_preview d }, [.render]) ∧
    (p.on_query_finished OPEN_OR_PLAY (.dirOrSong items none) ctx).1.stack.current.items
      = items ∧
    (p.on_query_finished INIT (.lsInfo names o) ctx).1.stack.others = [] ∧
    (p.on_query_finished INIT (.lsInfo names o) ctx).1.stack.current.items
      = names.map DirOrSong.name_only ∧
    runWork .initWork cat = .ok (.lsInfo cat.albums none) := by
  refine ⟨?_, ?_, ?_, ?_, rfl⟩
  · simp [AlbumsPane.on_query_finished, PREVIEW]
  · have hl := prepare_preview_preserves_levels
      { p with stack := p.stack.replace items } ctx
    simp [AlbumsPane.on_query_finished, PREVIEW, OPEN_OR_PLAY, INIT]
    rw [hl.2]
    simp [DirStack.replace]
  · have hl := prepare_preview_preserves_levels
      { p with stack := DirStack.new (names.map DirOrSong.name_only) } ctx
    simp [AlbumsPane.on_query_finished, PREVIEW, OPEN_OR_PLAY, INIT]
    rw [hl.1]
    simp [DirStack.new]
  · have hl := prepare_preview_preserves_levels
      { p with stack := DirStack.new (names.map DirOrSong.name_only) } ctx
    simp [AlbumsPane.on_query_finished, PREVIEW, OPEN_OR_PLAY, INIT]
    rw [hl.2]
    simp [DirStack.new]

/-- C10: open_or_play with no selected item (equivalently, when next_path
cannot be computed) succeeds, only logs, and leaves the pane completely
unchanged: no level pushed, preview untouched, no query, command or redraw
dispatched. -/
theorem open_or_play_no_selection_noop (p : AlbumsPane) (ctx : AppContext) (autoplay : Bool)
    (h : p.stack.current.selected = none ∨ p.stack.next_path = none) :
    p.open_or_play autoplay ctx
      = .ok (p, [.logError "Failed to move deeper inside dir. Current value is None"]) := by
  have hsel : p.stack.current.selected = none := by
    rcases h with h | h
    · exact h
    · simpa [DirStack.next_path] using h
  simp [AlbumsPane.open_or_play, hsel]

/-- C10 witness: the pane with an empty current level has no selection, and
open_or_play leaves it unchanged with only an error log. -/
theorem open_or_play_no_selection_noop_witness :
    (emptyPane.stack.current.selected = none ∨ emptyPane.stack.next_path = none) ∧
    emptyPane.open_or_play true demoCtx
      = .ok (emptyPane, [.logError "Failed to move deeper inside dir. Current value is None"]) :=
  ⟨Or.inl (by decide), open_or_play_no_selection_noop emptyPane demoCtx true (Or.inl (by decide))⟩

/-- C3: open_or_play with autoplay at depth 1 enqueues the selected entry
through an exact filter on both the album (group) name and the filename,
then issues a play-at-index command whose index is the play-queue length of
the context as it was before the enqueue command was dispatched (command
dispatch does not mutate the context, so ctx.queue.length is that
pre-enqueue snapshot). -/
theorem open_or_play_group_enqueue_play (p : AlbumsPane) (ctx : AppContext) (a : String)
    (item : DirOrSong)
    (hsel : p.stack.current.selected = some item)
    (hpath : p.stack.path = [a]) :
    p.open_or_play true ctx = .ok (p,
      [.command
        { action := .findAdd [Filter.file item.dir_name_or_file_name, Filter.album a] none,
          statusOnSuccess :=
            some ("\x27" ++ item.dir_name_or_file_name ++ "\x27 added to queue") },
       .command { action := .playLast ctx.queue.length, statusOnSuccess := none }]) := by
  simp [AlbumsPane.open_or_play, DirStack.next_path, hsel, hpath, AlbumsPane.add]

/-- C3 witness: at path A with songE2 selected, open-with-autoplay issues an
enqueue filtered to (file e2.mp3, album A) followed by play-at-index 1, the
queue length captured before the enqueue. -/
theorem open_or_play_group_enqueue_play_witness :
    paneAtA.stack.current.selected = some (DirOrSong.song songE2) ∧
    paneAtA.stack.path = ["A"] ∧
    paneAtA.open_or_play true demoCtx = .ok (paneAtA,
      [.command
        { action := .findAdd [Filter.file "e2.mp3", Filter.album "A"] none,
          statusOnSuccess := some ("\x27e2.mp3\x27 added to queue") },
       .command { action := .playLast demoCtx.queue.length, statusOnSuccess := none }]) :=
  ⟨by decide, by decide,
    open_or_play_group_enqueue_play paneAtA demoCtx "A" (DirOrSong.song songE2)
      (by decide) (by decide)⟩

/-- C4: open at the root with a group selected pushes an empty placeholder
level, clears the preview, submits exactly one query (under the
open_or_play supersession key) whose origin_path is next_path, the
pre-drill path extended with the selected group name, and whose work
fetches all entries of that group sorted by the configured comparator, and
requests an immediate redraw. -/
theorem open_or_play_root_drilldown (p : AlbumsPane) (ctx : AppContext) (autoplay : Bool)
    (name : String)
    (hsel : p.stack.current.selected = some (DirOrSong.dir name))
    (hpath : p.stack.path = []) :
    p.open_or_play autoplay ctx
      = .ok ({ p with stack := (p.stack.push []).clear_preview },
        [.querySubmit
          { id := OPEN_OR_PLAY, replaceId := OPEN_OR_PLAY, target := .Albums,
            work := .openOrPlayWork name ctx.browserSongSort (p.stack.path ++ [name]) },
         .render]) ∧
    (∀ cat,
      runWork (.openOrPlayWork name ctx.browserSongSort (p.stack.path ++ [name])) cat
        = .ok (.dirOrSong
            ((sortBy ctx.browserSongSort.le (findCat cat [Filter.album name])).map
              DirOrSong.song)
            (some (p.stack.path ++ [name])))) := by
  constructor
  · simp [AlbumsPane.open_or_play, DirStack.next_path, hsel, hpath, DirOrSong.as_path]
  · intro cat
    simp [runWork, list_titles]

/-- C4 witness: at the root with album A hovered, open pushes a placeholder,
clears the preview, submits the single drill-down query with origin_path
the path extended by A, and renders; the query work lists album A sorted. -/
theorem open_or_play_root_drilldown_witness :
    paneAtRoot.stack.current.selected = some (DirOrSong.dir "A") ∧
    paneAtRoot.stack.path = [] ∧
    (paneAtRoot.open_or_play true demoCtx
      = .ok ({ paneAtRoot with stack := (paneAtRoot.stack.push []).clear_preview },
        [.querySubmit
          { id := OPEN_OR_PLAY, replaceId := OPEN_OR_PLAY, target := .Albums,
            work := .openOrPlayWork "A" demoCtx.browserSongSort
              (paneAtRoot.stack.path ++ ["A"]) },
         .render]) ∧
    (∀ cat,
      runWork (.openOrPlayWork "A" demoCtx.browserSongSort (paneAtRoot.stack.path ++ ["A"]))
          cat
        = .ok (.dirOrSong
            ((sortBy demoCtx.browserSongSort.le (findCat cat [Filter.album "A"])).map
              DirOrSong.song)
            (some (paneAtRoot.stack.path ++ ["A"]))))) :=
  ⟨by decide, by decide,
    open_or_play_root_drilldown paneAtRoot demoCtx true "A" (by decide) (by decide)⟩

/-- C6 counterexample: at the unexpected depth-2 path the claim fails for
add_all (and add): the operation produces no effects at all, so no error is
logged and no redraw is requested, contrary to the claim that every such
operation logs at error severity and still requests a redraw. -/
theorem deep_path_claim_counterexample :
    1 < deepPane.stack.path.length ∧
    deepPane.add_all none = [] ∧
    Effect.render ∉ deepPane.add_all none ∧
    deepPane.add (DirOrSong.song songE1) none = [] := by
  refine ⟨by decide, rfl, ?_, rfl⟩
  rw [show deepPane.add_all none = [] from rfl]
  exact List.not_mem_nil _

/-- C6 amended: at a path deeper than the two defined states every operation
submits no query and no command; open_or_play (with an item selected) logs
the unexpected state at error severity, mutates nothing and requests a
redraw, while add and add_all are complete no-ops (no log, no redraw) and
prepare_preview only clears the preview slot, emitting nothing. -/
theorem deep_path_operations (p : AlbumsPane) (ctx : AppContext) (autoplay : Bool)
    (item item2 : DirOrSong) (pos : Option QueuePosition)
    (hsel : p.stack.current.selected = some item)
    (hdeep : 1 < p.stack.path.length) :
    p.open_or_play autoplay ctx
      = .ok (p, [.logError "Unexpected nesting in Artists dir structure", .render]) ∧
    p.add item2 pos = [] ∧
    p.add_all pos = [] ∧
    p.prepare_preview ctx = ({ p with stack := p.stack.clear_preview }, []) := by
  rcases hp : p.stack.path with _ | ⟨a, _ | ⟨b, rest⟩⟩
  · rw [hp] at hdeep
    simp at hdeep
  · rw [hp] at hdeep
    simp at hdeep
  · refine ⟨?_, ?_, ?_, ?_⟩
    · simp [AlbumsPane.open_or_play, DirStack.next_path, hsel, hp]
    · simp [AlbumsPane.add, hp]
    · simp [AlbumsPane.add_all, hp]
    · have hcp : (p.stack.clear_preview).path = p.stack.path := rfl
      simp [AlbumsPane.prepare_preview, hsel, hcp, hp]

/-- C6 amended witness: at the concrete depth-2 pane with a selection,
open_or_play logs and renders without mutating, add and add_all do nothing,
and prepare_preview only clears the preview. -/
theorem deep_path_operations_witness :
    deepPane.stack.current.selected = some (DirOrSong.song songE2) ∧
    1 < deepPane.stack.path.length ∧
    (deepPane.open_or_play true demoCtx
      = .ok (deepPane, [.logError "Unexpected nesting in Artists dir structure", .render]) ∧
    deepPane.add (DirOrSong.song songE1) none = [] ∧
    deepPane.add_all none = [] ∧
    deepPane.prepare_preview demoCtx
      = ({ deepPane with stack := deepPane.stack.clear_preview }, [])) :=
  ⟨by decide, by decide,
    deep_path_operations deepPane demoCtx true (DirOrSong.song songE2) (DirOrSong.song songE1)
      none (by decide) (by decide)⟩

end Rmpc
